import Mathlib

/-!
Shallow embedding of `src/livekit-agents/livekit/agents/voice/interruption_filter.py`.

Python strings are modelled as Lean `String` (a wrapper around `List Char`);
Python floats appearing in the configuration (`buffer_time`, `confidence`) are
modelled as `ℚ`, since every comparison the code performs on them is exact.
Character classes (`string.punctuation`, `str.split()` whitespace, `str.lower`)
are modelled on their ASCII behaviour, which is all the data in the code ever
exercises. A Python callable that may raise is modelled as a function into
`Option`, with `none` standing for a raised exception.
-/

/-- Mirrors `FilterAction` (interruption_filter.py lines 19-24). -/
inductive FilterAction where
  | allow
  | filter
  | pending
deriving DecidableEq, Repr

/-- Values stored in a `FilterDecision.metadata` dict: the code only ever
stores booleans and strings there. -/
inductive MetaVal where
  | b (v : Bool)
  | s (v : String)
deriving DecidableEq, Repr

/-- Mirrors `FilterDecision` (lines 27-41): action, reason, confidence,
metadata dict (modelled as an association list). -/
structure FilterDecision where
  action : FilterAction
  reason : String
  confidence : ℚ := 1
  metadata : List (String × MetaVal) := []
deriving DecidableEq, Repr

/-- Mirrors `DEFAULT_IGNORE_LIST` (lines 45-59). -/
def DEFAULT_IGNORE_LIST : List String :=
  [ "yeah", "yep", "yes", "yup", "ok", "okay",
    "hmm", "mhm", "mm", "mmm", "uh-huh", "uh huh",
    "ah", "aha", "oh", "ooh",
    "um", "uh", "er", "erm",
    "right", "sure", "alright", "got it",
    "go on", "continue", "i see" ]

/-- Membership of a character in the Python `string.punctuation`, which is
exactly the ASCII ranges 33-47, 58-64, 91-96 and 123-126. -/
def isPunct (c : Char) : Bool :=
  (33 ≤ c.toNat && c.toNat ≤ 47) || (58 ≤ c.toNat && c.toNat ≤ 64) ||
    (91 ≤ c.toNat && c.toNat ≤ 96) || (123 ≤ c.toNat && c.toNat ≤ 126)

/-- The whitespace characters recognised by the Python `str.split()` and
`str.strip()` (ASCII): tab 9, LF 10, VT 11, FF 12, CR 13 and space 32. -/
def pyIsSpace (c : Char) : Bool :=
  c.toNat = 32 || (9 ≤ c.toNat && c.toNat ≤ 13)

/-- the Python `str.lower` on a single character (ASCII case mapping). -/
def pyCharLower (c : Char) : Char :=
  if 65 ≤ c.toNat && c.toNat ≤ 90 then Char.ofNat (c.toNat + 32) else c

/-- the Python `str.lower` on a string. -/
def pyLower (s : String) : String :=
  String.mk (s.data.map pyCharLower)

/-- the Python `str.strip()` with no arguments: remove leading and trailing
whitespace. -/
def pyStrip (s : List Char) : List Char :=
  ((s.dropWhile pyIsSpace).reverse.dropWhile pyIsSpace).reverse

/-- Accumulator step for `str.split()`: fold from the right, starting a new
word at each whitespace character and extending the current word otherwise. -/
def pyWordsCore (s : List Char) : List (List Char) :=
  s.foldr
    (fun c ws =>
      if pyIsSpace c then [] :: ws
      else
        match ws with
        | [] => [[c]]
        | w :: rest => (c :: w) :: rest)
    []

/-- the Python `str.split()` with no arguments: maximal runs of non-whitespace
characters, in order; empty runs are discarded. -/
def pyWords (s : List Char) : List (List Char) :=
  (pyWordsCore s).filter (fun w => w ≠ [])

/-- Mirrors `InterruptionFilter._tokenize` (lines 147-168): remove all
punctuation characters, then split on whitespace, discarding empty strings. -/
def tokenizeText (text : String) : List String :=
  (pyWords (text.data.filter (fun c => !isPunct c))).map String.mk

/-- Mirrors `InterruptionFilterConfig` (lines 62-80). A `custom_filter`
result of `none` models the callable raising an exception. -/
structure InterruptionFilterConfig where
  enabled : Bool := true
  ignore_list : List String := DEFAULT_IGNORE_LIST
  case_sensitive : Bool := false
  buffer_time : ℚ := 1/2
  custom_filter : Option (String → String → Option Bool) := none
  emit_events : Bool := true

/-- Mirrors `InterruptionFilterConfig.validate` (lines 82-92): `Except.error`
models a raised `ValueError`; on success the returned configuration carries
the (possibly case-normalised) ignore list. -/
def InterruptionFilterConfig.validate (c : InterruptionFilterConfig) :
    Except String InterruptionFilterConfig :=
  if c.buffer_time < 0 || c.buffer_time > 2 then
    .error "buffer_time must be between 0 and 2.0 seconds"
  else if c.enabled && c.ignore_list.isEmpty then
    .error "ignore_list cannot be empty when filtering is enabled"
  else if c.case_sensitive then
    .ok c
  else
    .ok { c with ignore_list := c.ignore_list.map pyLower }

/-- Mirrors the state of an `InterruptionFilter` instance (lines 95-141):
`ignoreSet` is `self._ignore_set` (a set of strings, modelled as a list used
only through membership). -/
structure InterruptionFilter where
  enabled : Bool
  caseSensitive : Bool
  customFilterFn : Option (String → String → Option Bool)
  ignoreSet : List String

/-- Mirrors `InterruptionFilter.__init__` (lines 103-132): default the ignore
list, lower-case it unless case-sensitive, and store it as the ignore set. -/
def InterruptionFilter.init (ignoreList : Option (List String))
    (customFilterFn : Option (String → String → Option Bool))
    (enabled : Bool) (caseSensitive : Bool) : InterruptionFilter :=
  let il := ignoreList.getD DEFAULT_IGNORE_LIST
  let il := if caseSensitive then il else il.map pyLower
  { enabled := enabled, caseSensitive := caseSensitive,
    customFilterFn := customFilterFn, ignoreSet := il }

/-- Mirrors `InterruptionFilter._normalize_text` (lines 143-145). -/
def InterruptionFilter.normalizeText (f : InterruptionFilter) (text : String) : String :=
  if f.caseSensitive then text else pyLower text

/-- Mirrors `InterruptionFilter.is_ignore_list_only` (lines 170-191). -/
def InterruptionFilter.is_ignore_list_only (f : InterruptionFilter)
    (transcription : String) : Bool :=
  if transcription.data = [] || pyStrip transcription.data = [] then false
  else
    let words := tokenizeText (f.normalizeText transcription)
    if words = [] then false
    else words.all (fun w => f.ignoreSet.contains w)

/-- Mirrors `InterruptionFilter.has_command_words` (lines 193-214). -/
def InterruptionFilter.has_command_words (f : InterruptionFilter)
    (transcription : String) : Bool :=
  if transcription.data = [] || pyStrip transcription.data = [] then false
  else
    let words := tokenizeText (f.normalizeText transcription)
    if words = [] then false
    else words.any (fun w => !f.ignoreSet.contains w)

/-- The built-in decision rules of `should_filter_interruption` (lines
258-298), reached when filtering is enabled and there is no custom filter, or
the custom filter raised and the code falls through. -/
def InterruptionFilter.builtinDecision (f : InterruptionFilter)
    (transcription : String) (agentSpeaking : Bool) : FilterDecision :=
  if !agentSpeaking then
    { action := .allow, reason := "Agent not speaking, processing as user input",
      confidence := 1, metadata := [("agent_speaking", .b false)] }
  else if f.is_ignore_list_only transcription then
    { action := .filter, reason := "Backchanneling detected while agent speaking",
      confidence := 1,
      metadata := [("agent_speaking", .b true), ("ignore_list_only", .b true),
                   ("transcription", .s transcription)] }
  else if f.has_command_words transcription then
    { action := .allow, reason := "Command words detected, allowing interruption",
      confidence := 1,
      metadata := [("agent_speaking", .b true), ("has_command_words", .b true),
                   ("transcription", .s transcription)] }
  else
    { action := .allow, reason := "Default allow", confidence := 1/2, metadata := [] }

/-- Mirrors `InterruptionFilter.should_filter_interruption` (lines 216-298):
disabled short-circuit, then the custom filter (falling through to the
built-in rules if it raises), then the built-in rules. -/
def InterruptionFilter.should_filter_interruption (f : InterruptionFilter)
    (transcription : String) (agentState : String)
    (agentSpeaking : Bool) : FilterDecision :=
  if !f.enabled then
    { action := .allow, reason := "Filtering disabled", confidence := 1, metadata := [] }
  else
    match f.customFilterFn with
    | some fn =>
      match fn transcription agentState with
      | some shouldFilter =>
        { action := if shouldFilter then .filter else .allow,
          reason := "Custom filter decision", confidence := 1,
          metadata := [("custom_filter", .b true)] }
      | none => f.builtinDecision transcription agentSpeaking
    | none => f.builtinDecision transcription agentSpeaking

/-- The filter built by `InterruptionFilter()` with all defaults: default
ignore list, no custom filter, enabled, case-insensitive. -/
def defaultFilter : InterruptionFilter :=
  InterruptionFilter.init none none true false

/-- Whether, for this input, the configured custom filter is either absent or
raises (returns `none`); the situations in which `should_filter_interruption`
reaches the built-in rules past the custom-filter step. -/
def customAbsentOrRaises (f : InterruptionFilter) (text agentState : String) : Prop :=
  match f.customFilterFn with
  | none => True
  | some fn => fn text agentState = none

/-- Whether `validate` succeeds, i.e. the Python method returns instead of
raising `ValueError`. -/
def InterruptionFilterConfig.validateOk (c : InterruptionFilterConfig) : Bool :=
  match c.validate with
  | .ok _ => true
  | .error _ => false

/-! ### Helper lemmas about the character classes and the tokenizer -/

theorem toNat_ofNat_of_lt {n : Nat} (h : n < 55296) : (Char.ofNat n).toNat = n := by
  have hv : n.isValidChar := Or.inl h
  simp [Char.ofNat, hv, Char.ofNatAux, Char.toNat, UInt32.toNat, BitVec.ofNatLt]

theorem toNat_pyCharLower (c : Char) :
    (pyCharLower c).toNat =
      if 65 ≤ c.toNat && c.toNat ≤ 90 then c.toNat + 32 else c.toNat := by
  unfold pyCharLower
  split
  · next h =>
    simp only [Bool.and_eq_true, decide_eq_true_eq] at h
    rw [toNat_ofNat_of_lt (by omega)]
  · rfl

theorem pyCharLower_not_upper (c : Char) :
    (65 ≤ (pyCharLower c).toNat && (pyCharLower c).toNat ≤ 90) = false := by
  rw [Bool.eq_false_iff]
  intro hx
  simp only [Bool.and_eq_true, decide_eq_true_eq] at hx
  have h := toNat_pyCharLower c
  by_cases hc : (65 ≤ c.toNat && c.toNat ≤ 90) = true
  · rw [if_pos hc] at h
    simp only [Bool.and_eq_true, decide_eq_true_eq] at hc
    omega
  · rw [if_neg hc] at h
    rw [h] at hx
    exact hc (by simp only [Bool.and_eq_true, decide_eq_true_eq]; omega)

theorem pyCharLower_eq_self {c : Char} (h : (65 ≤ c.toNat && c.toNat ≤ 90) = false) :
    pyCharLower c = c := by
  unfold pyCharLower
  rw [h]
  rfl

theorem pyCharLower_idem (c : Char) : pyCharLower (pyCharLower c) = pyCharLower c :=
  pyCharLower_eq_self (pyCharLower_not_upper c)

theorem pyIsSpace_pyCharLower (c : Char) : pyIsSpace (pyCharLower c) = pyIsSpace c := by
  have h := toNat_pyCharLower c
  unfold pyIsSpace
  by_cases hc : (65 ≤ c.toNat && c.toNat ≤ 90) = true
  · rw [if_pos hc] at h
    simp only [Bool.and_eq_true, decide_eq_true_eq] at hc
    rw [h, Bool.eq_iff_iff]
    simp only [Bool.or_eq_true, Bool.and_eq_true, decide_eq_true_eq]
    omega
  · rw [if_neg hc] at h
    rw [h]

theorem pyLower_idem (s : String) : pyLower (pyLower s) = pyLower s := by
  unfold pyLower
  simp only [List.map_map]
  congr 1
  exact List.map_congr_left fun a _ => pyCharLower_idem a

theorem pyWordsCore_cons (c : Char) (cs : List Char) :
    pyWordsCore (c :: cs) =
      if pyIsSpace c then [] :: pyWordsCore cs
      else
        match pyWordsCore cs with
        | [] => [[c]]
        | w :: rest => (c :: w) :: rest := rfl

theorem pyWordsCore_all_nil {s : List Char} (h : s.all pyIsSpace = true) :
    ∀ w ∈ pyWordsCore s, w = [] := by
  induction s with
  | nil => intro w hw; cases hw
  | cons c cs ih =>
    simp only [List.all_cons, Bool.and_eq_true] at h
    intro w hw
    rw [pyWordsCore_cons, if_pos h.1] at hw
    rcases List.mem_cons.mp hw with rfl | hw
    · rfl
    · exact ih h.2 w hw

theorem pyWords_eq_nil_of_all_space {s : List Char} (h : s.all pyIsSpace = true) :
    pyWords s = [] := by
  unfold pyWords
  rw [List.filter_eq_nil_iff]
  intro w hw
  simp [pyWordsCore_all_nil h w hw]

theorem tokenizeText_eq_nil_of_all_space {t : String}
    (h : t.data.all pyIsSpace = true) : tokenizeText t = [] := by
  unfold tokenizeText
  rw [pyWords_eq_nil_of_all_space, List.map_nil]
  rw [List.all_eq_true] at h ⊢
  intro c hc
  exact h c (List.mem_filter.mp hc).1

theorem normalizeText_all_space (f : InterruptionFilter) {t : String}
    (h : t.data.all pyIsSpace = true) :
    (f.normalizeText t).data.all pyIsSpace = true := by
  unfold InterruptionFilter.normalizeText
  split
  · exact h
  · rw [List.all_eq_true] at h ⊢
    intro c hc
    unfold pyLower at hc
    simp only [List.mem_map] at hc
    obtain ⟨a, ha, rfl⟩ := hc
    rw [pyIsSpace_pyCharLower]
    exact h a ha

theorem all_of_dropWhile_eq_nil {α : Type} {p : α → Bool} :
    ∀ {l : List α}, l.dropWhile p = [] → ∀ x ∈ l, p x = true := by
  intro l
  induction l with
  | nil => intro _ x hx; cases hx
  | cons a as ih =>
    intro h x hx
    by_cases hpa : p a = true
    · rw [List.dropWhile_cons_of_pos hpa] at h
      rcases List.mem_cons.mp hx with rfl | hx
      · exact hpa
      · exact ih h x hx
    · rw [List.dropWhile_cons_of_neg hpa] at h
      cases h

theorem all_space_of_pyStrip_eq_nil {s : List Char} (h : pyStrip s = []) :
    s.all pyIsSpace = true := by
  unfold pyStrip at h
  rw [List.reverse_eq_nil_iff] at h
  have hdrop := all_of_dropWhile_eq_nil h
  rw [List.all_eq_true]
  intro c hc
  rw [← List.takeWhile_append_dropWhile (p := pyIsSpace) (l := s)] at hc
  rcases List.mem_append.mp hc with h1 | h2
  · exact List.mem_takeWhile_imp h1
  · exact hdrop c (List.mem_reverse.mpr h2)

theorem guard_eq_false_of_tokens_ne_nil (f : InterruptionFilter) {t : String}
    (h : tokenizeText (f.normalizeText t) ≠ []) :
    (t.data = [] || pyStrip t.data = []) = false := by
  rw [Bool.or_eq_false_iff]
  refine ⟨decide_eq_false_iff_not.mpr fun h1 => ?_, decide_eq_false_iff_not.mpr fun h2 => ?_⟩
  · exact h (tokenizeText_eq_nil_of_all_space (normalizeText_all_space f (by simp [h1])))
  · exact h (tokenizeText_eq_nil_of_all_space
      (normalizeText_all_space f (all_space_of_pyStrip_eq_nil h2)))

/-! ### Helper lemmas about the two classifiers -/

theorem is_ignore_list_only_of_tokens_ne_nil (f : InterruptionFilter) {t : String}
    (h : tokenizeText (f.normalizeText t) ≠ []) :
    f.is_ignore_list_only t =
      (tokenizeText (f.normalizeText t)).all (fun w => f.ignoreSet.contains w) := by
  unfold InterruptionFilter.is_ignore_list_only
  rw [if_neg (by simp [guard_eq_false_of_tokens_ne_nil f h])]
  exact if_neg h

theorem has_command_words_of_tokens_ne_nil (f : InterruptionFilter) {t : String}
    (h : tokenizeText (f.normalizeText t) ≠ []) :
    f.has_command_words t =
      (tokenizeText (f.normalizeText t)).any (fun w => !f.ignoreSet.contains w) := by
  unfold InterruptionFilter.has_command_words
  rw [if_neg (by simp [guard_eq_false_of_tokens_ne_nil f h])]
  exact if_neg h

theorem is_ignore_list_only_eq_false_of_tokens_nil (f : InterruptionFilter) {t : String}
    (h : tokenizeText (f.normalizeText t) = []) : f.is_ignore_list_only t = false := by
  unfold InterruptionFilter.is_ignore_list_only
  by_cases hg : (t.data = [] || pyStrip t.data = []) = true
  · rw [if_pos hg]
  · rw [if_neg hg]
    exact if_pos h

theorem has_command_words_eq_false_of_tokens_nil (f : InterruptionFilter) {t : String}
    (h : tokenizeText (f.normalizeText t) = []) : f.has_command_words t = false := by
  unfold InterruptionFilter.has_command_words
  by_cases hg : (t.data = [] || pyStrip t.data = []) = true
  · rw [if_pos hg]
  · rw [if_neg hg]
    exact if_pos h

theorem any_not_eq_not_all (l : List String) (p : String → Bool) :
    l.any (fun w => !p w) = !l.all p := by
  rw [List.all_eq_not_any_not, Bool.not_not]


/-! ### Concrete instances used by witnesses and counterexamples -/

/-- A custom filter callable that always signals "filter". -/
def alwaysFilterFn : String → String → Option Bool := fun _ _ => some true

/-- A custom filter callable that always raises. -/
def raisingFn : String → String → Option Bool := fun _ _ => none

/-- An enabled, case-insensitive filter with ignore list `["yeah"]` and the
always-filter custom callable installed. -/
def customTrueFilter : InterruptionFilter :=
  InterruptionFilter.init (some ["yeah"]) (some alwaysFilterFn) true false

/-- An enabled, case-insensitive filter with ignore list `["yeah"]` and the
always-raising custom callable installed. -/
def customRaisingFilter : InterruptionFilter :=
  InterruptionFilter.init (some ["yeah"]) (some raisingFn) true false

/-! ### Claim theorems -/

/-- Claim C1 (code bug evaluation): the default ignore list contains the
hyphenated entry "uh-huh" and the multi-word entry "got it", yet the filter
built with that very list classifies neither text as ignore-list-only: the
tokenizer deletes the hyphen, producing the token "uhhuh", and splits
"got it" into "got" and "it", none of which are members of the ignore set. -/
theorem c1_default_entries_not_ignore_only :
    DEFAULT_IGNORE_LIST.contains "uh-huh" = true ∧
    DEFAULT_IGNORE_LIST.contains "got it" = true ∧
    defaultFilter.ignoreSet.contains "uh-huh" = true ∧
    defaultFilter.is_ignore_list_only "uh-huh" = false ∧
    defaultFilter.is_ignore_list_only "got it" = false := by
  refine ⟨by decide, by decide, by decide, by decide, by decide⟩

/-- Claim C2: with filtering enabled, no custom policy, and the agent
speaking, an ignore-list-only text yields a FILTER decision with confidence
1, the backchanneling reason, and metadata carrying the original
transcript. -/
theorem c2_speaking_ignore_only_filters (f : InterruptionFilter) (text st : String)
    (hen : f.enabled = true) (hcf : f.customFilterFn = none)
    (hig : f.is_ignore_list_only text = true) :
    f.should_filter_interruption text st true =
      { action := .filter, reason := "Backchanneling detected while agent speaking",
        confidence := 1,
        metadata := [("agent_speaking", .b true), ("ignore_list_only", .b true),
                     ("transcription", .s text)] } := by
  unfold InterruptionFilter.should_filter_interruption
  rw [hen, hcf]
  unfold InterruptionFilter.builtinDecision
  rw [hig]
  simp

theorem c2_witness :
    defaultFilter.enabled = true ∧ defaultFilter.customFilterFn = none ∧
    defaultFilter.is_ignore_list_only "yeah!" = true ∧
    defaultFilter.should_filter_interruption "yeah!" "speaking" true =
      { action := .filter, reason := "Backchanneling detected while agent speaking",
        confidence := 1,
        metadata := [("agent_speaking", .b true), ("ignore_list_only", .b true),
                     ("transcription", .s "yeah!")] } :=
  ⟨rfl, rfl, by decide,
    c2_speaking_ignore_only_filters defaultFilter "yeah!" "speaking" rfl rfl (by decide)⟩

/-- Claim C3 counterexample: with an enabled configuration whose custom
policy signals "filter", decide called with agent-speaking = false returns
FILTER, not ALLOW — the custom policy step runs before the speaking check. -/
theorem c3_custom_policy_overrides_not_speaking :
    ¬((customTrueFilter.should_filter_interruption "yeah" "listening" false).action
        = FilterAction.allow) := by decide

/-- Claim C3 (amended): for every configuration in which, for the given
input, no custom policy is installed or the installed custom policy raises,
decide called with agent-speaking = false returns a decision whose action is
ALLOW, regardless of the text content. -/
theorem c3_not_speaking_allows (f : InterruptionFilter) (text st : String)
    (h : customAbsentOrRaises f text st) :
    (f.should_filter_interruption text st false).action = FilterAction.allow := by
  unfold InterruptionFilter.should_filter_interruption
  unfold customAbsentOrRaises at h
  split
  · rfl
  · split
    · next fn heq =>
      rw [heq] at h
      split
      · next b hres => rw [h] at hres; cases hres
      · unfold InterruptionFilter.builtinDecision
        rfl
    · unfold InterruptionFilter.builtinDecision
      rfl

theorem c3_witness :
    customAbsentOrRaises defaultFilter "stop now" "listening" ∧
    (defaultFilter.should_filter_interruption "stop now" "listening" false).action
      = FilterAction.allow :=
  ⟨trivial, c3_not_speaking_allows defaultFilter "stop now" "listening" trivial⟩

/-- Claim C4: with filtering enabled and a custom policy installed, whenever
the policy returns without raising, decide returns exactly the custom
decision: FILTER if the policy signalled "filter" and ALLOW otherwise, with
confidence 1 and metadata flagging custom-policy use; the built-in
ignore-list rules play no role (the result does not depend on the ignore
set or the text classification at all). -/
theorem c4_custom_policy_decides (f : InterruptionFilter)
    (fn : String → String → Option Bool) (text st : String) (sp b : Bool)
    (hen : f.enabled = true) (hcf : f.customFilterFn = some fn)
    (hres : fn text st = some b) :
    f.should_filter_interruption text st sp =
      { action := if b then .filter else .allow, reason := "Custom filter decision",
        confidence := 1, metadata := [("custom_filter", .b true)] } := by
  unfold InterruptionFilter.should_filter_interruption
  rw [hen, hcf]
  simp only [Bool.not_true, Bool.false_eq_true, if_false]
  rw [hres]

theorem c4_witness :
    customTrueFilter.enabled = true ∧
    customTrueFilter.customFilterFn = some alwaysFilterFn ∧
    alwaysFilterFn "anything" "speaking" = some true ∧
    customTrueFilter.should_filter_interruption "anything" "speaking" true =
      { action := .filter, reason := "Custom filter decision",
        confidence := 1, metadata := [("custom_filter", .b true)] } :=
  ⟨rfl, rfl, rfl,
    c4_custom_policy_decides customTrueFilter alwaysFilterFn "anything" "speaking"
      true true rfl rfl rfl⟩

/-- Claim C5: if the installed custom policy raises on the given input, the
error is swallowed and decide returns exactly what it would return with no
custom policy installed (the built-in rules); decide itself is a total
function, so it returns a well-formed decision for every text, including
empty, whitespace-only, or punctuation-only strings. -/
theorem c5_custom_error_falls_through (f : InterruptionFilter)
    (fn : String → String → Option Bool) (text st : String) (sp : Bool)
    (hcf : f.customFilterFn = some fn) (hres : fn text st = none) :
    f.should_filter_interruption text st sp =
      InterruptionFilter.should_filter_interruption
        { f with customFilterFn := none } text st sp := by
  unfold InterruptionFilter.should_filter_interruption
  rw [hcf]
  dsimp only
  rw [hres]
  rfl

theorem c5_witness :
    customRaisingFilter.customFilterFn = some raisingFn ∧
    raisingFn "yeah" "speaking" = none ∧
    customRaisingFilter.should_filter_interruption "yeah" "speaking" true =
      InterruptionFilter.should_filter_interruption
        { customRaisingFilter with customFilterFn := none } "yeah" "speaking" true :=
  ⟨rfl, rfl,
    c5_custom_error_falls_through customRaisingFilter raisingFn "yeah" "speaking"
      true rfl rfl⟩

/-- Claim C6: validate raises a configuration error if and only if the
buffer time is negative or exceeds 2.0 seconds, or filtering is enabled and
the ignore list is empty; and in particular it rejects buffer-time -0.5 and
3.0, accepts buffer-time 1.0, rejects an empty ignore list when enabled and
accepts one when disabled. -/
theorem c6_validate_error_iff :
    (∀ c : InterruptionFilterConfig,
      c.validateOk = false ↔
        (c.buffer_time < 0 ∨ c.buffer_time > 2 ∨
          (c.enabled = true ∧ c.ignore_list = []))) ∧
    InterruptionFilterConfig.validateOk { buffer_time := -(1/2) } = false ∧
    InterruptionFilterConfig.validateOk { buffer_time := 3 } = false ∧
    InterruptionFilterConfig.validateOk { buffer_time := 1 } = true ∧
    InterruptionFilterConfig.validateOk
      { enabled := true, ignore_list := [], buffer_time := 1 } = false ∧
    InterruptionFilterConfig.validateOk
      { enabled := false, ignore_list := [], buffer_time := 1 } = true := by
  have main : ∀ c : InterruptionFilterConfig,
      c.validateOk = false ↔
        (c.buffer_time < 0 ∨ c.buffer_time > 2 ∨
          (c.enabled = true ∧ c.ignore_list = [])) := by
    intro c
    unfold InterruptionFilterConfig.validateOk InterruptionFilterConfig.validate
    split_ifs with h1 h2 h3
    · simp only [Bool.or_eq_true, decide_eq_true_eq] at h1
      simp only [true_iff]
      tauto
    · simp only [Bool.and_eq_true, List.isEmpty_eq_true] at h2
      simp only [true_iff]
      tauto
    · simp only [Bool.or_eq_true, decide_eq_true_eq, not_or] at h1
      simp only [Bool.and_eq_true, List.isEmpty_eq_true, not_and] at h2
      simp only [false_iff, not_or]
      refine ⟨h1.1, h1.2, ?_⟩
      rintro ⟨he, hl⟩
      exact h2 he hl
    · simp only [Bool.or_eq_true, decide_eq_true_eq, not_or] at h1
      simp only [Bool.and_eq_true, List.isEmpty_eq_true, not_and] at h2
      simp only [false_iff, not_or]
      refine ⟨h1.1, h1.2, ?_⟩
      rintro ⟨he, hl⟩
      exact h2 he hl
  refine ⟨main, ?_, ?_, ?_, ?_, ?_⟩
  · exact (main _).mpr (Or.inl (by norm_num))
  · exact (main _).mpr (Or.inr (Or.inl (by norm_num)))
  · cases hb : InterruptionFilterConfig.validateOk { buffer_time := 1 } with
    | false =>
      rcases (main _).mp hb with h1 | h2 | ⟨he, hl⟩
      · norm_num at h1
      · norm_num at h2
      · simp [DEFAULT_IGNORE_LIST] at hl
    | true => rfl
  · exact (main _).mpr (Or.inr (Or.inr ⟨rfl, rfl⟩))
  · cases hb : InterruptionFilterConfig.validateOk
        { enabled := false, ignore_list := [], buffer_time := 1 } with
    | false =>
      rcases (main _).mp hb with h1 | h2 | ⟨he, hl⟩
      · norm_num at h1
      · norm_num at h2
      · cases he
    | true => rfl

/-- Claim C7: validate is idempotent: whenever validate succeeds and yields
the normalised configuration, running validate on that result raises no
error and returns it completely unchanged (including the ignore list). -/
theorem c7_validate_idempotent (c c' : InterruptionFilterConfig)
    (h : c.validate = .ok c') : c'.validate = .ok c' := by
  unfold InterruptionFilterConfig.validate at h ⊢
  split_ifs at h with h1 h2 h3
  · injection h with h
    subst h
    rw [if_neg h1, if_neg h2, if_pos h3]
  · injection h with h
    subst h
    have hmap : (c.ignore_list.map pyLower).map pyLower = c.ignore_list.map pyLower := by
      rw [List.map_map]
      exact List.map_congr_left fun a _ => pyLower_idem a
    rw [if_neg (by simpa using h1), if_neg ?hc2, if_neg (by simpa using h3)]
    case hc2 =>
      simp only [Bool.and_eq_true, List.isEmpty_eq_true, List.map_eq_nil_iff]
      simpa [List.isEmpty_eq_true] using h2
    simp only [hmap]

/-- A configuration with mixed-case ignore entries, used to exercise
validate twice. -/
def cfgMixedCase : InterruptionFilterConfig :=
  { ignore_list := ["YEAH", "Ok", "hmm"], buffer_time := 1 }

/-- The configuration validate produces from `cfgMixedCase`: the ignore list
is lower-cased, everything else is unchanged. -/
def cfgMixedCaseNormalized : InterruptionFilterConfig :=
  { ignore_list := ["yeah", "ok", "hmm"], buffer_time := 1 }

theorem c7_witness :
    cfgMixedCase.validate = .ok cfgMixedCaseNormalized ∧
    cfgMixedCaseNormalized.validate = .ok cfgMixedCaseNormalized :=
  ⟨rfl, c7_validate_idempotent cfgMixedCase cfgMixedCaseNormalized rfl⟩

/-- Claim C8: for every filter configuration, both classifiers return false
on empty or whitespace-only input; in particular neither is the negation of
the other there. -/
theorem c8_blank_input_both_false (f : InterruptionFilter) (text : String)
    (h : text.data.all pyIsSpace = true) :
    f.is_ignore_list_only text = false ∧ f.has_command_words text = false :=
  have htok := tokenizeText_eq_nil_of_all_space (normalizeText_all_space f h)
  ⟨is_ignore_list_only_eq_false_of_tokens_nil f htok,
   has_command_words_eq_false_of_tokens_nil f htok⟩

theorem c8_witness :
    (("" : String).data.all pyIsSpace = true ∧
      defaultFilter.is_ignore_list_only "" = false ∧
      defaultFilter.has_command_words "" = false) ∧
    (("   " : String).data.all pyIsSpace = true ∧
      defaultFilter.is_ignore_list_only "   " = false ∧
      defaultFilter.has_command_words "   " = false) :=
  ⟨⟨by decide, (c8_blank_input_both_false defaultFilter "" (by decide)).1,
      (c8_blank_input_both_false defaultFilter "" (by decide)).2⟩,
   ⟨by decide, (c8_blank_input_both_false defaultFilter "   " (by decide)).1,
      (c8_blank_input_both_false defaultFilter "   " (by decide)).2⟩⟩

/-- Claim C9: for every configuration (custom policy raising or not), every
text, agent-state label and speaking flag, the decision returned by decide
has action ALLOW or FILTER, never PENDING. -/
theorem c9_action_never_pending (f : InterruptionFilter) (text st : String)
    (sp : Bool) :
    (f.should_filter_interruption text st sp).action = FilterAction.allow ∨
      (f.should_filter_interruption text st sp).action = FilterAction.filter := by
  unfold InterruptionFilter.should_filter_interruption InterruptionFilter.builtinDecision
  split
  · exact Or.inl rfl
  · split
    · split
      · next b hres =>
        cases b
        · exact Or.inl rfl
        · exact Or.inr rfl
      · split
        · exact Or.inl rfl
        · split
          · exact Or.inr rfl
          · split
            · exact Or.inl rfl
            · exact Or.inl rfl
    · split
      · exact Or.inl rfl
      · split
        · exact Or.inr rfl
        · split
          · exact Or.inl rfl
          · exact Or.inl rfl

/-- Claim C10: for every configuration, on every text whose normalised,
punctuation-stripped tokenization is non-empty, classify-has-command is the
boolean negation of classify-ignore-only; on every text tokenizing to the
empty list, both classifiers return false. -/
theorem c10_command_negates_ignore_only (f : InterruptionFilter) (text : String) :
    (tokenizeText (f.normalizeText text) ≠ [] →
      f.has_command_words text = !f.is_ignore_list_only text) ∧
    (tokenizeText (f.normalizeText text) = [] →
      f.is_ignore_list_only text = false ∧ f.has_command_words text = false) := by
  constructor
  · intro h
    rw [has_command_words_of_tokens_ne_nil f h, is_ignore_list_only_of_tokens_ne_nil f h,
      any_not_eq_not_all]
  · intro h
    exact ⟨is_ignore_list_only_eq_false_of_tokens_nil f h,
      has_command_words_eq_false_of_tokens_nil f h⟩

theorem c10_witness :
    (tokenizeText (defaultFilter.normalizeText "yeah stop") ≠ [] ∧
      defaultFilter.has_command_words "yeah stop" =
        !defaultFilter.is_ignore_list_only "yeah stop") ∧
    (tokenizeText (defaultFilter.normalizeText "?!.") = [] ∧
      defaultFilter.is_ignore_list_only "?!." = false ∧
      defaultFilter.has_command_words "?!." = false) :=
  ⟨⟨by decide, (c10_command_negates_ignore_only defaultFilter "yeah stop").1 (by decide)⟩,
   ⟨by decide, (c10_command_negates_ignore_only defaultFilter "?!.").2 (by decide)⟩⟩
